import Mathlib

/-!
Verification of the azureml-examples repository specification.

The repository consists of three notebooks (LightGBM training, PyTorch
deployment, Dask data exploration), two CI workflow definitions and a
markdown page.  The developments below embed the glue code of those files
in Lean: the pure helper functions of the LightGBM notebook are translated
directly; the straight-line call sequences of the notebooks become explicit
call traces; the external libraries (scikit-learn, LightGBM, mlflow, dask,
black) are modelled at the level of their documented behaviour, with
anything the claims do not depend on left as a universally-quantified
parameter.  Definitions come first, then the theorems about them.
-/

namespace AzuremlExamples

/-! ## Tabular data frames

A pandas dataframe as used by the LightGBM notebook: a list of column
names and a list of rows.  CSV cells are kept as strings; none of the
claims depend on the numeric interpretation of the feature cells. -/

structure Frame where
  header : List String
  rows : List (List String)
deriving DecidableEq, Repr

/-- Model of pandas df.drop with axis 1: every column whose label matches
is removed, from the header and from each row. -/
def Frame.dropCol (f : Frame) (c : String) : Frame :=
  ⟨f.header.filter (fun h => h ≠ c),
   f.rows.map (fun r => ((f.header.zip r).filter (fun p => p.1 ≠ c)).map (fun p => p.2))⟩

/-- Model of pandas column selection df with a single label: the value of
that column in each row (first occurrence of the label). -/
def Frame.getCol (f : Frame) (c : String) : List String :=
  f.rows.map (fun r => r.getD (f.header.indexOf c) "")

/-! ## Label encoding

Model of sklearn.preprocessing.LabelEncoder: fitting records the sorted
distinct class labels, transforming maps each label to its index among
the classes. -/

def insertSorted (x : String) : List String → List String
  | [] => [x]
  | y :: ys => if x ≤ y then x :: y :: ys else y :: insertSorted x ys

def sortStrings : List String → List String
  | [] => []
  | x :: xs => insertSorted x (sortStrings xs)

structure LabelEncoder where
  classes : List String
deriving DecidableEq, Repr

def LabelEncoder.fit (ys : List String) : LabelEncoder :=
  ⟨sortStrings ys.dedup⟩

def LabelEncoder.transform (enc : LabelEncoder) (ys : List String) : List Nat :=
  ys.map (fun y => enc.classes.indexOf y)

/-! ## Seeded shuffling and train/test splitting

Model of sklearn.model_selection.train_test_split.  Its documented
behaviour: with a float test size, the test part receives the ceiling of
testSize times the row count; the rows are shuffled by a pseudo-random
permutation fully determined by the random state when one is given, and
by ambient process randomness otherwise.  The permutation itself is
internal to the library; it is modelled by a Fisher-Yates shuffle driven
by a linear congruential generator, which stands in for any
seed-determined permutation. -/

def lcgNext (s : Nat) : Nat := (1103515245 * s + 12345) % 4294967296

/-- Fisher-Yates style shuffle: fuel-indexed so the recursion is
structural; the fuel is always instantiated with the list length. -/
def shuffleGo : Nat → Nat → List Nat → List Nat
  | _, 0, _ => []
  | _, _ + 1, [] => []
  | s, fuel + 1, x :: xs =>
    let k := s % (x :: xs).length
    (x :: xs).getD k 0 :: shuffleGo (lcgNext s) fuel ((x :: xs).eraseIdx k)

/-- The seed-determined pseudo-random permutation of the indices 0..n-1. -/
def randomPermutation (seed n : Nat) : List Nat :=
  shuffleGo seed n (List.range n)

/-- Model of train_test_split on parallel feature rows and labels.
ambient is the ambient process randomness, consulted only when no
random state is passed. -/
def train_test_split (X : List (List String)) (y : List Nat) (testSize : ℚ)
    (randomState : Option Nat) (ambient : Nat) :
    List (List String) × List (List String) × List Nat × List Nat :=
  let seed := randomState.getD ambient
  let n := X.length
  let nTest := (⌈testSize * n⌉).toNat
  let idx := randomPermutation seed n
  let testIdx := idx.take nTest
  let trainIdx := idx.drop nTest
  (trainIdx.map (fun i => X.getD i []), testIdx.map (fun i => X.getD i []),
   trainIdx.map (fun i => y.getD i 0), testIdx.map (fun i => y.getD i 0))

/-! ## preprocess_data

Direct translation of the notebook function

    def preprocess_data(df):
        X = df.drop(["species"], axis=1)
        y = df["species"]
        enc = LabelEncoder()
        y = enc.fit_transform(y)
        X_train, X_test, y_train, y_test = train_test_split(
            X, y, test_size=0.2, random_state=42
        )
        return X_train, X_test, y_train, y_test, enc

The ambient randomness of the Python process is made an explicit
argument; the call passes random_state 42, so it is never consulted. -/

def preprocess_data (ambient : Nat) (df : Frame) :
    Frame × Frame × List Nat × List Nat × LabelEncoder :=
  let X := df.dropCol "species"
  let y0 := df.getCol "species"
  let enc := LabelEncoder.fit y0
  let y := enc.transform y0
  let tts := train_test_split X.rows y (1/5) (some 42) ambient
  (⟨X.header, tts.1⟩, ⟨X.header, tts.2.1⟩, tts.2.2.1, tts.2.2.2, enc)

/-! ## Concrete frames used in counterexamples and witnesses -/

/-- A three-row frame with a species column: its row count is not a
multiple of five, so a 0.2 test fraction cannot be exact. -/
def irisMini : Frame :=
  ⟨["sepal_length", "species"],
   [["1", "setosa"], ["2", "versicolor"], ["3", "virginica"]]⟩

/-- A five-row frame with a species column. -/
def irisFive : Frame :=
  ⟨["sepal_length", "species"],
   [["1", "setosa"], ["2", "versicolor"], ["3", "virginica"],
    ["4", "setosa"], ["5", "versicolor"]]⟩

/-! ## The LightGBM trial

The training parameters, train_model and evaluate_model functions, and
the run-a-trial cell of the LightGBM notebook.  LightGBM training, the
model, its predict method, the two sklearn metric functions and the wall
clock are external; they appear as universally quantified parameters, so
every theorem below holds for any behaviour of those externals. -/

structure LgbParams where
  objective : String
  num_class : Nat
  learning_rate : ℚ
  metric : String
  colsample_bytree : ℚ
  subsample : ℚ
  seed : Nat
deriving DecidableEq, Repr

/-- The params dictionary of the run-a-trial cell. -/
def trialParams : LgbParams :=
  ⟨"multiclass", 3, 1/10, "multi_logloss", 1, 1, 42⟩

/-- An lgb.Dataset: feature frame plus labels. -/
structure LgbDataset where
  data : Frame
  label : List Nat
deriving DecidableEq

/-- numpy argmax along a row: index of the first occurrence of the
maximal entry. -/
def argmaxIdx : List ℚ → Nat
  | [] => 0
  | [_] => 0
  | x :: y :: xs =>
    let j := argmaxIdx (y :: xs)
    if x < (y :: xs).getD j 0 then j + 1 else 0

/-- Translation of train_model.  lgb_train is the external
lightgbm.train; t1 and t2 are the two external wall-clock readings. -/
def train_model {Model : Type}
    (lgb_train : LgbParams → LgbDataset → Nat → List LgbDataset → List String → Model)
    (t1 t2 : ℚ) (params : LgbParams) (num_boost_round : Nat)
    (X_train X_test : Frame) (y_train y_test : List Nat) : Model × ℚ :=
  let train_data : LgbDataset := ⟨X_train, y_train⟩
  let test_data : LgbDataset := ⟨X_test, y_test⟩
  let model := lgb_train params train_data num_boost_round [test_data] ["test"]
  (model, t2 - t1)

/-- Translation of evaluate_model.  predict is the external model predict
method, log_loss and accuracy_score the external sklearn metrics. -/
def evaluate_model {Model : Type}
    (predict : Model → Frame → List (List ℚ))
    (log_loss : List Nat → List (List ℚ) → ℚ)
    (accuracy_score : List Nat → List Nat → ℚ)
    (model : Model) (X_test : Frame) (y_test : List Nat) : ℚ × ℚ :=
  let y_proba := predict model X_test
  let y_pred := y_proba.map argmaxIdx
  (log_loss y_test y_proba, accuracy_score y_test y_pred)

/-- The run-a-trial cell: preprocess, train, evaluate, and the list of
metric name/value pairs logged to the tracking service, in call order. -/
def run_trial {Model : Type}
    (lgb_train : LgbParams → LgbDataset → Nat → List LgbDataset → List String → Model)
    (predict : Model → Frame → List (List ℚ))
    (log_loss : List Nat → List (List ℚ) → ℚ)
    (accuracy_score : List Nat → List Nat → ℚ)
    (t1 t2 : ℚ) (ambient : Nat) (df : Frame) : List (String × ℚ) :=
  let pre := preprocess_data ambient df
  let X_train := pre.1
  let X_test := pre.2.1
  let y_train := pre.2.2.1
  let y_test := pre.2.2.2.1
  let num_boost_round := 32
  let tm := train_model lgb_train t1 t2 trialParams num_boost_round
    X_train X_test y_train y_test
  let model := tm.1
  let train_time := tm.2
  let ev := evaluate_model predict log_loss accuracy_score model X_test y_test
  let loss := ev.1
  let acc := ev.2
  [("training_time", train_time), ("loss", loss), ("accuracy", acc)]

/-! ## The mlflow call trace of the LightGBM notebook -/

inductive MlflowCall
  | set_tracking_uri
  | set_experiment (experiment : String)
  | start_run
  | autolog
  | log_metric (metric : String)
  | log_metrics (metrics : List String)
  | end_run
deriving DecidableEq, Repr

/-- The mlflow API calls issued by the LightGBM notebook code itself, in
source order: set the tracking URI and experiment, start the run, enable
lightgbm autologging, log the training_time metric, log the loss and
accuracy metrics, end the run. -/
def lightgbmMlflowTrace : List MlflowCall :=
  [.set_tracking_uri, .set_experiment "lightgbm-iris-local-example",
   .start_run, .autolog, .log_metric "training_time",
   .log_metrics ["loss", "accuracy"], .end_run]

/-- Which mlflow API calls issue a request to the tracking service.
set_tracking_uri only records the URI in the client and
mlflow.lightgbm.autolog only patches the lightgbm library locally;
the remaining calls contact the service. -/
def MlflowCall.issuesServiceCall : MlflowCall → Bool
  | .set_tracking_uri => false
  | .autolog => false
  | _ => true

/-- Which mlflow API calls append metrics to the run. -/
def MlflowCall.isMetricLogging : MlflowCall → Bool
  | .log_metric _ => true
  | .log_metrics _ => true
  | _ => false

/-- The segment of a trace strictly between the first start_run and the
following end_run. -/
def betweenStartEnd (tr : List MlflowCall) : List MlflowCall :=
  ((tr.dropWhile (fun c => c ≠ .start_run)).drop 1).takeWhile (fun c => c ≠ .end_run)

/-! ## The deployment notebook step sequence -/

inductive DeployStep
  | checkSdkVersion
  | loadWorkspace
  | registerModel
  | writeRequirementsFile
  | defineEnvironment
  | createInferenceConfig
  | deployWebservice
  | waitForDeployment
  | getLogs
  | printScoringUri
  | showTestImage
  | definePreprocessFn
  | invokeService
  | deleteService
deriving DecidableEq, Repr

/-- The statements the PyTorch deployment notebook executes, in source
order across its code cells. -/
def deploySteps : List DeployStep :=
  [.checkSdkVersion, .loadWorkspace, .registerModel, .writeRequirementsFile,
   .defineEnvironment, .createInferenceConfig, .deployWebservice,
   .waitForDeployment, .getLogs, .printScoringUri, .showTestImage,
   .definePreprocessFn, .invokeService, .deleteService]

/-! ## Operations on the dask dataframe handle

The data-exploration notebook builds a dask dataframe handle ddf and
applies the operations below to it, in source order.  The classification
of each operation follows the dask execution model: read_parquet and
repartition only extend the lazy task graph, while persist executes the
graph and pins the partitions in worker memory, len and info execute the
graph to examine the contents, and the compute calls execute the graph
and return concrete results. -/

inductive DdfOp
  | read_parquet
  | repartition (npartitions : Nat)
  | persist
  | len
  | info
  | columnCompute (column : String)
  | fullCompute
  | memoryUsageCompute
deriving DecidableEq, Repr

/-- The operations applied to the handle ddf in the notebook, in source
order: the read_parquet/repartition/persist chain that creates it, two
timed len calls, info, the tipAmount histogram compute, the full
compute into a pandas dataframe, and the memory_usage sum compute. -/
def ddfOps : List DdfOp :=
  [.read_parquet, .repartition 8, .persist, .len, .len, .info,
   .columnCompute "tipAmount", .fullCompute, .memoryUsageCompute]

/-- Whether the operation materialises the task graph or examines the
contents of the handle; lazy graph-building operations do not. -/
def DdfOp.materializes : DdfOp → Bool
  | .read_parquet => false
  | .repartition _ => false
  | _ => true

/-- Whether the operation is written as a compute() call in the source. -/
def DdfOp.isComputeCall : DdfOp → Bool
  | .columnCompute _ => true
  | .fullCompute => true
  | .memoryUsageCompute => true
  | _ => false

/-! ## Exception flow of the notebook code

The notebooks are straight-line sequences of library and SDK calls.  The
embedding language below nevertheless has try/except and sequencing, so
that the absence of exception handling in the repository code is a
provable fact about the embedded programs rather than an artefact of the
embedding.  An environment assigns each external call a result: ok, or
an exception value carried as a string. -/

/-- Every external library, SDK or shell call the three notebooks make. -/
inductive RepoCall
  | pipInstall
  | workspaceFromConfig
  | mlflowSetTrackingUri
  | mlflowSetExperiment
  | pandasReadCsv
  | mlflowStartRun
  | mlflowAutolog
  | lightgbmTrain
  | mlflowLogMetric
  | sklearnMetrics
  | mlflowLogMetrics
  | mlflowEndRun
  | printSdkVersion
  | modelRegister
  | writeRequirementsFile
  | environmentRegister
  | modelDeploy
  | waitForDeployment
  | serviceGetLogs
  | printScoringUri
  | plotTestImage
  | torchPreprocess
  | serviceRun
  | serviceDelete
  | daskClientStart
  | adlfsListFiles
  | adlfsGlobFiles
  | daskReadParquet
  | daskLen
  | daskInfo
  | daskComputeHist
  | daskComputeFull
  | pandasDescribe
  | memoryUsageSum
deriving DecidableEq, Repr

/-- Statements of the embedding language: an external call, sequencing,
the empty statement, or a try/except handler. -/
inductive Stmt
  | callE (c : RepoCall)
  | seqE (s t : Stmt)
  | skip
  | tryExcept (body handler : Stmt)
deriving DecidableEq, Repr

/-- Whether a statement contains a try/except handler anywhere. -/
def Stmt.hasTryExcept : Stmt → Bool
  | .callE _ => false
  | .seqE s t => s.hasTryExcept || t.hasTryExcept
  | .skip => false
  | .tryExcept _ _ => true

/-- The external calls a statement makes, in order. -/
def Stmt.callsOf : Stmt → List RepoCall
  | .callE c => [c]
  | .seqE s t => s.callsOf ++ t.callsOf
  | .skip => []
  | .tryExcept body handler => body.callsOf ++ handler.callsOf

/-- Execution: a call takes the result the environment gives it, a
sequence stops at the first exception, and try/except swallows an
exception from its body by running the handler. -/
def execStmt (env : RepoCall → Except String Unit) : Stmt → Except String Unit
  | .callE c => env c
  | .seqE s t =>
    match execStmt env s with
    | .ok _ => execStmt env t
    | .error e => .error e
  | .skip => .ok ()
  | .tryExcept body handler =>
    match execStmt env body with
    | .ok _ => .ok ()
    | .error _ => execStmt env handler

/-- Folds a list of statements into one sequential statement. -/
def stmtsOf (cs : List RepoCall) : Stmt :=
  (cs.map Stmt.callE).foldr Stmt.seqE Stmt.skip

/-- The LightGBM notebook as a statement: its cells in source order. -/
def lightgbmProgram : Stmt :=
  stmtsOf [.pipInstall, .workspaceFromConfig, .mlflowSetTrackingUri,
    .mlflowSetExperiment, .pandasReadCsv, .mlflowStartRun, .mlflowAutolog,
    .lightgbmTrain, .mlflowLogMetric, .sklearnMetrics, .mlflowLogMetrics,
    .mlflowEndRun]

/-- The PyTorch deployment notebook as a statement. -/
def deployProgram : Stmt :=
  stmtsOf [.printSdkVersion, .workspaceFromConfig, .modelRegister,
    .writeRequirementsFile, .environmentRegister, .modelDeploy,
    .waitForDeployment, .serviceGetLogs, .printScoringUri, .plotTestImage,
    .torchPreprocess, .serviceRun, .serviceDelete]

/-- The Dask data-exploration notebook as a statement. -/
def daskProgram : Stmt :=
  stmtsOf [.pipInstall, .workspaceFromConfig, .daskClientStart,
    .pandasReadCsv, .adlfsListFiles, .adlfsGlobFiles, .daskReadParquet,
    .daskLen, .daskLen, .daskInfo, .daskComputeHist, .daskComputeFull,
    .pandasDescribe, .memoryUsageSum]

/-- The three notebook programs of the repository. -/
def repoPrograms : List Stmt := [lightgbmProgram, deployProgram, daskProgram]

/-- An environment that fails the pandas read_csv call and lets every
other call succeed. -/
def envCsvDown : RepoCall → Except String Unit :=
  fun c => if c = .pandasReadCsv then .error "connection refused" else .ok ()

/-- An environment in which every external call succeeds. -/
def envAllOk : RepoCall → Except String Unit := fun _ => .ok ()

/-! ## The CLI walkthrough script under set -e

Modelled from the spec: the walkthrough script cli/how-to-configure-cli.sh
is referenced by the CI workflow but is not among the source files; per
the spec it is a shell walkthrough that invokes the cloud CLI extension
command by command, run by the workflow step under set -e.  Under set -e
the shell stops at the first command with a nonzero exit code and exits
with that code; otherwise it exits zero. -/

/-- Execution of a command list under set -e, given the exit code of
each command. -/
def runSetE (exitCode : String → Nat) : List String → Nat
  | [] => 0
  | c :: rest => if exitCode c = 0 then runSetE exitCode rest else exitCode c

/-- Modelled from the spec: the command sequence of the walkthrough
script cli/how-to-configure-cli.sh, a walkthrough of the az ml CLI
following the markdown documentation. -/
def howToConfigureCliScript : List String :=
  ["az extension add -n ml -y",
   "az ml job create -f jobs/hello-world.yml --web --stream"]

/-- An exit-code assignment in which every shell command exits zero. -/
def allZeroExit : String → Nat := fun _ => 0

/-! ## The CI workflow definitions -/

inductive Trigger
  | push (branches : List String)
  | pullRequest (branches : List String)
  | schedule (cron : String)
deriving DecidableEq, Repr

structure WfStep where
  stepName : String
  runs : Option String
  usesAction : Option String
deriving DecidableEq, Repr

structure Workflow where
  wfName : String
  triggers : List Trigger
  steps : List WfStep
deriving DecidableEq, Repr

def Trigger.isPush : Trigger → Bool
  | .push _ => true
  | _ => false

def Trigger.isSchedule : Trigger → Bool
  | .schedule _ => true
  | _ => false

/-- Splits a character list into whitespace-separated tokens; acc holds
the characters of the current token in reverse. -/
def tokenizeGo (acc : List Char) : List Char → List String
  | [] => if acc = [] then [] else [String.mk acc.reverse]
  | c :: cs =>
    if c = ' ' then
      if acc = [] then tokenizeGo [] cs
      else String.mk acc.reverse :: tokenizeGo [] cs
    else tokenizeGo (c :: acc) cs

/-- The shell tokens of the run command of a step. -/
def WfStep.runTokens (s : WfStep) : List String :=
  tokenizeGo [] (s.runs.getD "").data

/-- The step that runs black over the sources in check mode. -/
def checkCodeFormatStep : WfStep :=
  ⟨"check code format", some "black --check .", none⟩

/-- The step that runs black-nb over the notebooks in check mode. -/
def checkNotebookFormatStep : WfStep :=
  ⟨"check notebook format", some "black-nb --clear-output --check .", none⟩

/-- The smoke workflow of .github/workflows/smoke.yml. -/
def smokeWorkflow : Workflow :=
  ⟨"smoke",
   [.push ["main"], .pullRequest ["main"], .schedule "0 0/1 * * *"],
   [⟨"check out repo", none, some "actions/checkout@v2"⟩,
    ⟨"setup python", none, some "actions/setup-python@v2"⟩,
    ⟨"pip install", some "pip install -r dev-requirements.txt", none⟩,
    checkCodeFormatStep,
    checkNotebookFormatStep]⟩

/-- The step of the CLI docs workflow that runs the walkthrough script. -/
def testDocScriptStep : WfStep :=
  ⟨"test doc script", some "set -e; bash -x how-to-configure-cli.sh", none⟩

/-- The cli-docs-how-to-configure-cli workflow. -/
def cliDocsWorkflow : Workflow :=
  ⟨"cli-docs-how-to-configure-cli",
   [.schedule "0 0/4 * * *", .pullRequest ["main", "cli-preview"]],
   [⟨"check out repo", none, some "actions/checkout@v2"⟩,
    ⟨"azure login", none, some "azure/login@v1"⟩,
    ⟨"install ml cli", some "az extension add -n ml -y", none⟩,
    ⟨"setup workspace", some "bash setup.sh", none⟩,
    ⟨"docs installs",
      some "sudo apt-get upgrade -y && sudo apt-get install uuid-runtime jq -y",
      none⟩,
    testDocScriptStep]⟩

/-- Model of a formatter invocation (black or black-nb) over the
repository files: reformat is the formatting function of the external
tool; with --check among the arguments it only reports whether every
file is already formatted, otherwise it rewrites each file in place. -/
def formatterRun (reformat : String → String) (args : List String)
    (files : List (String × String)) : List (String × String) × Bool :=
  if args.contains "--check" then
    (files, files.all (fun f => reformat f.2 == f.2))
  else
    (files.map (fun f => (f.1, reformat f.2)), true)

/-! ## Permutation facts about the shuffle -/

theorem getD_cons_eraseIdx_perm (d : α) :
    ∀ (xs : List α) (k : Nat), k < xs.length →
      List.Perm (xs.getD k d :: xs.eraseIdx k) xs := by
  intro xs
  induction xs with
  | nil => intro k h; simp at h
  | cons x xs ih =>
    intro k h
    cases k with
    | zero => simp [List.getD]
    | succ k =>
      have hk : k < xs.length := by simpa using h
      simp only [List.getD_cons_succ, List.eraseIdx_cons_succ]
      exact List.Perm.trans
        (List.Perm.swap x (xs.getD k d) (xs.eraseIdx k))
        ((ih k hk).cons x)

theorem shuffleGo_perm :
    ∀ (fuel : Nat) (s : Nat) (xs : List Nat), xs.length = fuel →
      List.Perm (shuffleGo s fuel xs) xs := by
  intro fuel
  induction fuel with
  | zero =>
    intro s xs h
    rw [List.length_eq_zero] at h
    subst h
    simp [shuffleGo]
  | succ fuel ih =>
    intro s xs h
    match xs with
    | [] => simp at h
    | x :: xs =>
      set ys := x :: xs with hys
      have hlen : 0 < ys.length := by simp [hys]
      have hk : s % ys.length < ys.length := Nat.mod_lt _ hlen
      have herase : (ys.eraseIdx (s % ys.length)).length = fuel := by
        rw [List.length_eraseIdx_of_lt hk]
        omega
      have hstep : shuffleGo s (fuel + 1) ys
          = ys.getD (s % ys.length) 0 ::
              shuffleGo (lcgNext s) fuel (ys.eraseIdx (s % ys.length)) := rfl
      rw [hstep]
      exact List.Perm.trans
        ((ih (lcgNext s) _ herase).cons _)
        (getD_cons_eraseIdx_perm 0 ys _ hk)

theorem randomPermutation_perm (seed n : Nat) :
    List.Perm (randomPermutation seed n) (List.range n) :=
  shuffleGo_perm n seed (List.range n) (List.length_range n)

theorem randomPermutation_length (seed n : Nat) :
    (randomPermutation seed n).length = n := by
  rw [(randomPermutation_perm seed n).length_eq, List.length_range]

/-! ## Recovering a list from index selections -/

theorem zip_map_same (f : α → β) (g : α → γ) :
    ∀ l : List α, (l.map f).zip (l.map g) = l.map (fun a => (f a, g a)) := by
  intro l
  induction l with
  | nil => rfl
  | cons x xs ih => simp [List.zip_cons_cons, ih]

theorem range_map_getD_zip (dx : α) (dy : β) :
    ∀ (xs : List α) (ys : List β), xs.length = ys.length →
      (List.range xs.length).map (fun i => (xs.getD i dx, ys.getD i dy)) = xs.zip ys := by
  intro xs
  induction xs with
  | nil => intro ys h; simp
  | cons x xs ih =>
    intro ys h
    match ys with
    | [] => simp at h
    | y :: ys =>
      have h' : xs.length = ys.length := by simpa using h
      rw [List.length_cons, List.range_succ_eq_map]
      simp only [List.map_cons, List.getD_cons_zero, List.map_map, List.zip_cons_cons]
      congr 1
      have hfun : ((fun i => ((x :: xs).getD i dx, (y :: ys).getD i dy)) ∘ Nat.succ)
          = fun i => (xs.getD i dx, ys.getD i dy) := by
        funext i
        simp [List.getD_cons_succ]
      rw [hfun, ih ys h']

/-! ## Claims C8 and C9: preprocess_data -/

/-- Claim C8: preprocess_data is deterministic: the random state 42 passed
to train_test_split makes the result independent of the ambient process
randomness, so two calls on equal input dataframes return identical
splits and an identically fitted label encoder. -/
theorem preprocess_data_deterministic (a₁ a₂ : Nat) (df : Frame) :
    preprocess_data a₁ df = preprocess_data a₂ df := by
  simp [preprocess_data, train_test_split]

/-- Claim C9 counterexample: on a three-row input frame the test part of
the split holds one row of three, which is not fraction 0.2 of the rows,
refuting the claim as stated. -/
theorem preprocess_fraction_counterexample :
    "species" ∈ irisMini.header ∧
    (preprocess_data 0 irisMini).2.1.rows.length * 5 ≠ irisMini.rows.length := by
  refine ⟨by decide, ?_⟩
  have hrows : (irisMini.dropCol "species").rows.length = 3 := by decide
  have hr : (preprocess_data 0 irisMini).2.1.rows
      = ((randomPermutation 42 (irisMini.dropCol "species").rows.length).take
          (⌈(1/5 : ℚ) * ((irisMini.dropCol "species").rows.length : ℚ)⌉).toNat).map
        (fun i => (irisMini.dropCol "species").rows.getD i []) := rfl
  have hnt : (⌈(1/5 : ℚ) * ((irisMini.dropCol "species").rows.length : ℚ)⌉).toNat = 1 := by
    rw [hrows]
    have hc : (⌈(1/5 : ℚ) * ((3 : ℕ) : ℚ)⌉ : ℤ) = 1 := by
      rw [Int.ceil_eq_iff]
      constructor <;> norm_num
    rw [hc]
    rfl
  rw [hr, List.length_map, List.length_take, hnt, hrows, randomPermutation_length]
  decide

/-- Claim C9 (amended): for every input dataframe with a species column,
preprocess_data returns feature frames whose columns are the input
columns without species, a fitted encoder over the species column, and
train/test parts that together are a permutation of the feature rows
paired with the label-encoded species column; the test part holds the
ceiling of 0.2 times the row count, hence exactly fraction 0.2 whenever
the row count is a multiple of five. -/
theorem preprocess_data_partitions (df : Frame) (a : Nat)
    (hs : "species" ∈ df.header) :
    ((preprocess_data a df).1.header = df.header.filter (fun h => h ≠ "species")) ∧
    ((preprocess_data a df).2.1.header = df.header.filter (fun h => h ≠ "species")) ∧
    ((preprocess_data a df).2.2.2.2 = LabelEncoder.fit (df.getCol "species")) ∧
    List.Perm
      ((preprocess_data a df).1.rows.zip (preprocess_data a df).2.2.1 ++
        (preprocess_data a df).2.1.rows.zip (preprocess_data a df).2.2.2.1)
      ((df.dropCol "species").rows.zip
        ((LabelEncoder.fit (df.getCol "species")).transform (df.getCol "species"))) ∧
    (preprocess_data a df).2.1.rows.length
      = (⌈(1/5 : ℚ) * (df.rows.length : ℚ)⌉).toNat := by
  have hn : (df.dropCol "species").rows.length = df.rows.length := by
    simp [Frame.dropCol]
  have hlen : (df.dropCol "species").rows.length
      = ((LabelEncoder.fit (df.getCol "species")).transform (df.getCol "species")).length := by
    simp [Frame.dropCol, Frame.getCol, LabelEncoder.transform]
  refine ⟨rfl, rfl, rfl, ?_, ?_⟩
  · show List.Perm
      ((((randomPermutation 42 (df.dropCol "species").rows.length).drop
            (⌈(1/5 : ℚ) * ((df.dropCol "species").rows.length : ℚ)⌉).toNat).map
          (fun i => (df.dropCol "species").rows.getD i [])).zip
        (((randomPermutation 42 (df.dropCol "species").rows.length).drop
            (⌈(1/5 : ℚ) * ((df.dropCol "species").rows.length : ℚ)⌉).toNat).map
          (fun i => ((LabelEncoder.fit (df.getCol "species")).transform
              (df.getCol "species")).getD i 0)) ++
        (((randomPermutation 42 (df.dropCol "species").rows.length).take
            (⌈(1/5 : ℚ) * ((df.dropCol "species").rows.length : ℚ)⌉).toNat).map
          (fun i => (df.dropCol "species").rows.getD i [])).zip
        (((randomPermutation 42 (df.dropCol "species").rows.length).take
            (⌈(1/5 : ℚ) * ((df.dropCol "species").rows.length : ℚ)⌉).toNat).map
          (fun i => ((LabelEncoder.fit (df.getCol "species")).transform
              (df.getCol "species")).getD i 0)))
      ((df.dropCol "species").rows.zip
        ((LabelEncoder.fit (df.getCol "species")).transform (df.getCol "species")))
    rw [zip_map_same, zip_map_same, ← List.map_append]
    have hidx : List.Perm
        ((randomPermutation 42 (df.dropCol "species").rows.length).drop
            (⌈(1/5 : ℚ) * ((df.dropCol "species").rows.length : ℚ)⌉).toNat ++
          (randomPermutation 42 (df.dropCol "species").rows.length).take
            (⌈(1/5 : ℚ) * ((df.dropCol "species").rows.length : ℚ)⌉).toNat)
        (List.range (df.dropCol "species").rows.length) := by
      have h1 : List.Perm
          ((randomPermutation 42 (df.dropCol "species").rows.length).drop
              (⌈(1/5 : ℚ) * ((df.dropCol "species").rows.length : ℚ)⌉).toNat ++
            (randomPermutation 42 (df.dropCol "species").rows.length).take
              (⌈(1/5 : ℚ) * ((df.dropCol "species").rows.length : ℚ)⌉).toNat)
          (randomPermutation 42 (df.dropCol "species").rows.length) := by
        have h2 := @List.perm_append_comm Nat
          ((randomPermutation 42 (df.dropCol "species").rows.length).drop
            (⌈(1/5 : ℚ) * ((df.dropCol "species").rows.length : ℚ)⌉).toNat)
          ((randomPermutation 42 (df.dropCol "species").rows.length).take
            (⌈(1/5 : ℚ) * ((df.dropCol "species").rows.length : ℚ)⌉).toNat)
        rwa [List.take_append_drop] at h2
      exact h1.trans (randomPermutation_perm 42 _)
    refine (hidx.map _).trans ?_
    have heq := range_map_getD_zip ([] : List String) 0
      (df.dropCol "species").rows
      ((LabelEncoder.fit (df.getCol "species")).transform (df.getCol "species")) hlen
    rw [heq]
  · have hr : (preprocess_data a df).2.1.rows
        = ((randomPermutation 42 (df.dropCol "species").rows.length).take
            (⌈(1/5 : ℚ) * ((df.dropCol "species").rows.length : ℚ)⌉).toNat).map
          (fun i => (df.dropCol "species").rows.getD i []) := rfl
    have hnt : (⌈(1/5 : ℚ) * ((df.dropCol "species").rows.length : ℚ)⌉).toNat
        ≤ (df.dropCol "species").rows.length := by
      have hle : (1/5 : ℚ) * ((df.dropCol "species").rows.length : ℚ)
          ≤ ((df.dropCol "species").rows.length : ℚ) := by
        have hpos : (0 : ℚ) ≤ ((df.dropCol "species").rows.length : ℚ) :=
          Nat.cast_nonneg _
        nlinarith
      have hceil : ⌈(1/5 : ℚ) * ((df.dropCol "species").rows.length : ℚ)⌉
          ≤ ((df.dropCol "species").rows.length : ℤ) := by
        have hmono := Int.ceil_le_ceil hle
        rwa [Int.ceil_natCast] at hmono
      exact Int.toNat_le.mpr hceil
    rw [hr, List.length_map, List.length_take, randomPermutation_length,
      Nat.min_eq_left hnt, hn]

/-- Witness for the amended claim C9 at a concrete five-row frame. -/
theorem preprocess_data_partitions_witness :
    ("species" ∈ irisFive.header) ∧
    (((preprocess_data 0 irisFive).1.header
        = irisFive.header.filter (fun h => h ≠ "species")) ∧
      ((preprocess_data 0 irisFive).2.1.header
        = irisFive.header.filter (fun h => h ≠ "species")) ∧
      ((preprocess_data 0 irisFive).2.2.2.2
        = LabelEncoder.fit (irisFive.getCol "species")) ∧
      List.Perm
        ((preprocess_data 0 irisFive).1.rows.zip (preprocess_data 0 irisFive).2.2.1 ++
          (preprocess_data 0 irisFive).2.1.rows.zip (preprocess_data 0 irisFive).2.2.2.1)
        ((irisFive.dropCol "species").rows.zip
          ((LabelEncoder.fit (irisFive.getCol "species")).transform
            (irisFive.getCol "species"))) ∧
      (preprocess_data 0 irisFive).2.1.rows.length
        = (⌈(1/5 : ℚ) * (irisFive.rows.length : ℚ)⌉).toNat) :=
  ⟨by decide, preprocess_data_partitions irisFive 0 (by decide)⟩

/-! ## Claim C4: the trial logs the right metrics -/

/-- Claim C4: the trial fits a gradient-boosted classifier with objective
multiclass over 3 classes on the loaded dataset and logs exactly the
metrics training_time, loss and accuracy, where loss is the log-loss and
accuracy the accuracy of the trained model evaluated on the held-out
test split produced by preprocess_data. -/
theorem run_trial_metrics {Model : Type}
    (lgb_train : LgbParams → LgbDataset → Nat → List LgbDataset → List String → Model)
    (predict : Model → Frame → List (List ℚ))
    (log_loss : List Nat → List (List ℚ) → ℚ)
    (accuracy_score : List Nat → List Nat → ℚ)
    (t1 t2 : ℚ) (ambient : Nat) (df : Frame) :
    trialParams.objective = "multiclass" ∧
    trialParams.num_class = 3 ∧
    run_trial lgb_train predict log_loss accuracy_score t1 t2 ambient df
      = [("training_time", t2 - t1),
         ("loss",
          log_loss (preprocess_data ambient df).2.2.2.1
            (predict
              (lgb_train trialParams
                ⟨(preprocess_data ambient df).1, (preprocess_data ambient df).2.2.1⟩ 32
                [⟨(preprocess_data ambient df).2.1, (preprocess_data ambient df).2.2.2.1⟩]
                ["test"])
              (preprocess_data ambient df).2.1)),
         ("accuracy",
          accuracy_score (preprocess_data ambient df).2.2.2.1
            ((predict
              (lgb_train trialParams
                ⟨(preprocess_data ambient df).1, (preprocess_data ambient df).2.2.1⟩ 32
                [⟨(preprocess_data ambient df).2.1, (preprocess_data ambient df).2.2.2.1⟩]
                ["test"])
              (preprocess_data ambient df).2.1).map argmaxIdx))] :=
  ⟨rfl, rfl, rfl⟩

/-! ## Claim C2: the run lifecycle in the mlflow trace -/

/-- Claim C2: every tracking-service call the notebook issues between
mlflow.start_run and mlflow.end_run is a metric-logging call, and the
run that is started is ended exactly once: start_run and end_run each
occur once, with start_run first. -/
theorem lightgbm_run_lifecycle :
    (∀ c ∈ betweenStartEnd lightgbmMlflowTrace,
      c.issuesServiceCall = true → c.isMetricLogging = true) ∧
    lightgbmMlflowTrace.count .start_run = 1 ∧
    lightgbmMlflowTrace.count .end_run = 1 ∧
    lightgbmMlflowTrace.indexOf .start_run < lightgbmMlflowTrace.indexOf .end_run := by
  refine ⟨by decide, by decide, by decide, by decide⟩

/-! ## Claim C3: the deployment step order -/

/-- Claim C3: the deployment notebook registers the pretrained model,
then packages the scoring script into an inference configuration, then
deploys behind the managed container service, then invokes the deployed
service, and finally deletes it; each of these steps occurs exactly once
and precedes the next in the executed sequence. -/
theorem deploy_steps_ordered :
    deploySteps.count .registerModel = 1 ∧
    deploySteps.count .createInferenceConfig = 1 ∧
    deploySteps.count .deployWebservice = 1 ∧
    deploySteps.count .invokeService = 1 ∧
    deploySteps.count .deleteService = 1 ∧
    deploySteps.indexOf .registerModel < deploySteps.indexOf .createInferenceConfig ∧
    deploySteps.indexOf .createInferenceConfig < deploySteps.indexOf .deployWebservice ∧
    deploySteps.indexOf .deployWebservice < deploySteps.indexOf .invokeService ∧
    deploySteps.indexOf .invokeService < deploySteps.indexOf .deleteService := by
  refine ⟨by decide, by decide, by decide, by decide, by decide, by decide,
    by decide, by decide, by decide⟩

/-! ## Claim C1: what touches the dask handle -/

/-- Claim C1 counterexample: the notebook persists the handle via
persist(), and persist, len and info all materialise or examine its
contents without being compute() calls, refuting the claim that no
operation other than compute() does so. -/
theorem ddf_only_compute_counterexample :
    DdfOp.persist ∈ ddfOps ∧
    ¬(∀ op ∈ ddfOps, op.materializes = true → op.isComputeCall = true) := by
  refine ⟨by decide, by decide⟩

/-- Claim C1 (amended): the handle is persisted exactly once via
persist() and is additionally examined by two len calls and one info
call; every other operation that materialises or examines its contents
is a compute() call. -/
theorem ddf_materializing_ops :
    ddfOps.count .persist = 1 ∧
    ddfOps.filter (fun op => op.materializes && !op.isComputeCall)
      = [.persist, .len, .len, .info] := by
  refine ⟨by decide, by decide⟩

/-! ## Claims C5 and C7: exception propagation and success -/

/-- In a statement without try/except, an exception arises only as the
unchanged exception of one of the external calls. -/
theorem execStmt_error_of_no_handler (env : RepoCall → Except String Unit) :
    ∀ s : Stmt, s.hasTryExcept = false → ∀ e : String,
      execStmt env s = .error e → ∃ c ∈ s.callsOf, env c = .error e := by
  intro s
  induction s with
  | callE c =>
    intro _ e he
    exact ⟨c, by simp [Stmt.callsOf], by simpa [execStmt] using he⟩
  | seqE s t ihs iht =>
    intro h e he
    simp only [Stmt.hasTryExcept, Bool.or_eq_false_iff] at h
    simp only [execStmt] at he
    match hs : execStmt env s with
    | .ok _ =>
      rw [hs] at he
      obtain ⟨c, hc, hce⟩ := iht h.2 e he
      exact ⟨c, by simp [Stmt.callsOf, hc], hce⟩
    | .error e' =>
      rw [hs] at he
      obtain rfl : e' = e := by simpa using he
      obtain ⟨c, hc, hce⟩ := ihs h.1 e' hs
      exact ⟨c, by simp [Stmt.callsOf, hc], hce⟩
  | skip =>
    intro _ e he
    simp [execStmt] at he
  | tryExcept body handler ihb ihh =>
    intro h
    simp [Stmt.hasTryExcept] at h

/-- If every call a statement makes succeeds, the statement succeeds. -/
theorem execStmt_ok_of_calls_ok (env : RepoCall → Except String Unit) :
    ∀ s : Stmt, (∀ c ∈ s.callsOf, env c = .ok ()) → execStmt env s = .ok () := by
  intro s
  induction s with
  | callE c =>
    intro h
    simpa [execStmt] using h c (by simp [Stmt.callsOf])
  | seqE s t ihs iht =>
    intro h
    have hs := ihs fun c hc => h c (by simp [Stmt.callsOf, hc])
    have ht := iht fun c hc => h c (by simp [Stmt.callsOf, hc])
    simp [execStmt, hs, ht]
  | skip =>
    intro _
    simp [execStmt]
  | tryExcept body handler ihb ihh =>
    intro h
    have hb := ihb fun c hc => h c (by simp [Stmt.callsOf, hc])
    simp [execStmt, hb]

/-- Claim C5: no code in the repository catches or translates an
exception: none of the three notebook programs contains a try/except,
and whenever a call in one of them raises, the exception reaches the top
level unchanged, as the error of that call. -/
theorem no_exception_handling :
    (∀ p ∈ repoPrograms, p.hasTryExcept = false) ∧
    (∀ p ∈ repoPrograms, ∀ env : RepoCall → Except String Unit, ∀ e : String,
      execStmt env p = .error e → ∃ c ∈ p.callsOf, env c = .error e) := by
  have h1 : ∀ p ∈ repoPrograms, p.hasTryExcept = false := by decide
  refine ⟨h1, ?_⟩
  intro p hp env e he
  exact execStmt_error_of_no_handler env p (h1 p hp) e he

/-- Witness for claim C5: running the LightGBM notebook in an
environment where read_csv raises surfaces exactly that exception, and
it is the exception of one of the notebook calls, unchanged. -/
theorem no_exception_handling_witness :
    ∃ c ∈ lightgbmProgram.callsOf, envCsvDown c = .error "connection refused" :=
  no_exception_handling.2 lightgbmProgram (by simp [repoPrograms])
    envCsvDown "connection refused" (by rfl)

theorem runSetE_eq_zero_iff (exitCode : String → Nat) :
    ∀ cs : List String, runSetE exitCode cs = 0 ↔ ∀ c ∈ cs, exitCode c = 0 := by
  intro cs
  induction cs with
  | nil => simp [runSetE]
  | cons c rest ih =>
    by_cases hc : exitCode c = 0
    · simp [runSetE, hc, ih]
    · simp [runSetE, hc]

/-- Claim C7: when every external call succeeds, each notebook program
runs end-to-end without raising; and the set -e walkthrough step exits
zero exactly when every command of the script exits zero. -/
theorem examples_succeed_when_externals_do :
    (∀ env : RepoCall → Except String Unit, ∀ p ∈ repoPrograms,
      (∀ c ∈ p.callsOf, env c = .ok ()) → execStmt env p = .ok ()) ∧
    (∀ exitCode : String → Nat,
      (runSetE exitCode howToConfigureCliScript = 0 ↔
        ∀ c ∈ howToConfigureCliScript, exitCode c = 0)) := by
  refine ⟨?_, ?_⟩
  · intro env p _ h
    exact execStmt_ok_of_calls_ok env p h
  · intro exitCode
    exact runSetE_eq_zero_iff exitCode howToConfigureCliScript

/-- Witness for claim C7: with all externals succeeding, each of the
three notebooks runs to completion and the walkthrough step exits
zero. -/
theorem examples_succeed_witness :
    execStmt envAllOk lightgbmProgram = .ok () ∧
    execStmt envAllOk deployProgram = .ok () ∧
    execStmt envAllOk daskProgram = .ok () ∧
    runSetE allZeroExit howToConfigureCliScript = 0 :=
  ⟨examples_succeed_when_externals_do.1 envAllOk lightgbmProgram
      (by simp [repoPrograms]) (fun c _ => rfl),
   examples_succeed_when_externals_do.1 envAllOk deployProgram
      (by simp [repoPrograms]) (fun c _ => rfl),
   examples_succeed_when_externals_do.1 envAllOk daskProgram
      (by simp [repoPrograms]) (fun c _ => rfl),
   (examples_succeed_when_externals_do.2 allZeroExit).mpr (fun c _ => rfl)⟩

/-! ## Claims C6 and C10: the CI workflows -/

/-- Claim C6: the smoke workflow triggers include push and its steps run
the two format checks; the CLI docs workflow triggers include a cron
schedule and its steps run the walkthrough script. -/
theorem ci_workflows_shape :
    (smokeWorkflow.triggers.any Trigger.isPush = true) ∧
    (∃ s ∈ smokeWorkflow.steps,
      s.runTokens.headI = "black" ∧ "--check" ∈ s.runTokens) ∧
    (∃ s ∈ smokeWorkflow.steps,
      s.runTokens.headI = "black-nb" ∧ "--check" ∈ s.runTokens) ∧
    (cliDocsWorkflow.triggers.any Trigger.isSchedule = true) ∧
    (∃ s ∈ cliDocsWorkflow.steps,
      "bash" ∈ s.runTokens ∧ "how-to-configure-cli.sh" ∈ s.runTokens) := by
  refine ⟨by decide, ⟨checkCodeFormatStep, by decide, by decide, by decide⟩,
    ⟨checkNotebookFormatStep, by decide, by decide, by decide⟩, by decide,
    ⟨testDocScriptStep, by decide, by decide, by decide⟩⟩

/-- Claim C10: both format-check steps of the smoke workflow pass
--check, so whatever formatting function the tool applies and whatever
the repository files hold, running either step leaves every file
unchanged. -/
theorem format_checks_modify_nothing :
    checkCodeFormatStep ∈ smokeWorkflow.steps ∧
    checkNotebookFormatStep ∈ smokeWorkflow.steps ∧
    "--check" ∈ checkCodeFormatStep.runTokens ∧
    "--check" ∈ checkNotebookFormatStep.runTokens ∧
    (∀ (reformat : String → String) (files : List (String × String)),
      (formatterRun reformat checkCodeFormatStep.runTokens files).1 = files) ∧
    (∀ (reformat : String → String) (files : List (String × String)),
      (formatterRun reformat checkNotebookFormatStep.runTokens files).1 = files) := by
  refine ⟨by decide, by decide, by decide, by decide, ?_, ?_⟩
  · intro reformat files
    rfl
  · intro reformat files
    rfl

end AzuremlExamples
